import Mathlib

/-!
Shallow embedding of the trip-visualizer pipeline
(`app.py`, `trip_map_optimized.py`, `trip_map.py`) and proofs of the
frozen claims about it.

Strings are modelled as `List Char`; Python's `str.lower`, `str.strip`,
substring tests (`in`), `str.split`, `str.title` and the concrete regular
expressions used by the source are implemented character by character.
Naive datetimes are modelled as integer second counts; date-only values
as integer day numbers (midnight = day * 86400), matching
`datetime.combine(d, datetime.min.time())`.
-/

/-- Strings from the source are modelled as lists of characters. -/
abbrev Str := List Char

/-- Helper turning a Lean string literal into the `List Char` model. -/
def strL (s : String) : Str := s.toList

/-- Characters Python's `str.strip` / `str.split` / regex `\s` treat as
whitespace (ASCII subset, sufficient for the embedded text operations). -/
def pySpace (c : Char) : Bool :=
  c == ' ' || c == '\t' || c == '\n' || c == '\r' || c == '\x0b' || c == '\x0c'

/-- Python `str.lower` (ASCII case folding; emoji and other characters
are left unchanged, as in the source's keyword matching). -/
def lowerS (s : Str) : Str := s.map Char.toLower

/-- Python `str.startswith`: does `s` start with `pat`? -/
def startsWithL : Str → Str → Bool
  | [], _ => true
  | _ :: _, [] => false
  | p :: ps, c :: cs => p == c && startsWithL ps cs

/-- Python substring test `pat in s` (the empty pattern is contained in
every string, as in Python). -/
def isSubL (pat : Str) : Str → Bool
  | [] => pat.isEmpty
  | c :: cs => startsWithL pat (c :: cs) || isSubL pat cs

/-- Python `str.lstrip()` (default whitespace). -/
def lstripL (s : Str) : Str := s.dropWhile pySpace

/-- Python `str.rstrip()` (default whitespace). -/
def rstripL (s : Str) : Str := (s.reverse.dropWhile pySpace).reverse

/-- Python `str.strip()` (default whitespace). -/
def stripL (s : Str) : Str := rstripL (lstripL s)

/- ------------------------------------------------------------------ -/
/- Keyword Classifier: `app.py` lines 66-136 (`process_ics_file`).     -/
/- ------------------------------------------------------------------ -/

/-- Travel keywords including booking platforms, `app.py` lines 66-96. -/
def travel_keywords : List Str := List.map strL [
  "airbnb", "booking.com", "agoda", "trip.com", "hotels.com",
  "expedia", "kayak", "priceline", "tripadvisor", "hostelworld",
  "vrbo", "trivago", "marriott", "hilton", "hyatt",
  "flight", "flights", "fly", "flying", "airport", "airline",
  "train", "rail", "railway", "amtrak", "eurostar",
  "bus", "coach", "greyhound", "flixbus",
  "rental car", "rent a car", "car rental", "hire car",
  "uber", "lyft", "taxi", "transfer",
  "hotel", "hotels", "accommodation", "motel", "resort", "hostel",
  "lodge", "inn", "suite", "apartment", "villa",
  "trip", "travel", "traveling", "travelling", "journey",
  "vacation", "vacations", "holiday", "holidays", "getaway",
  "visit", "visiting", "tour", "tourist", "tourism",
  "cruise", "cruising", "sailing",
  "check-in", "checkin", "check in",
  "check-out", "checkout", "check out",
  "reservation", "reservations", "booked", "booking",
  "✈️", "🏨", "🚂", "🚗", "🏖️", "🗺️", "🧳", "🎫", "🏝️", "⛱️"]

/-- Booking platforms for strong matching, `app.py` lines 99-103. -/
def booking_platforms : List Str := List.map strL [
  "airbnb", "booking.com", "agoda", "trip.com", "hotels.com",
  "expedia", "kayak", "priceline", "tripadvisor", "hostelworld",
  "vrbo", "trivago"]

/-- Exclusion keywords, `app.py` lines 106-111. -/
def exclusion_keywords : List Str := List.map strL [
  "meeting", "call", "zoom", "teams", "virtual",
  "webinar", "conference call", "standup", "stand-up",
  "interview", "dental", "doctor", "appointment",
  "birthday", "anniversary", "party", "work", "office"]

/-- The combined lower-cased text scanned for keywords, `app.py` line 123:
`(summary + " " + location + " " + description).lower()`. -/
def combined_text (summary location description : Str) : Str :=
  lowerS (summary ++ [' '] ++ location ++ [' '] ++ description)

/-- Exclusion test, `app.py` line 126:
`any(excl in combined_text for excl in exclusion_keywords)`. -/
def exclusion_hit (buf : Str) : Bool :=
  exclusion_keywords.any (fun e => isSubL e buf)

/-- Booking-platform test, `app.py` line 130:
`any(platform in combined_text for platform in booking_platforms)`. -/
def has_booking_platform (buf : Str) : Bool :=
  booking_platforms.any (fun p => isSubL p buf)

/-- Travel keyword count, `app.py` line 133:
`sum(1 for keyword in travel_keywords if keyword in combined_text)`. -/
def travel_score (buf : Str) : Nat :=
  travel_keywords.countP (fun k => isSubL k buf)

/-- The classifier's acceptance decision, `app.py` lines 126-136:
exclusion first (`continue`), then
`if has_booking_platform or travel_score >= 1`. -/
def classifier_accept (summary location description : Str) : Bool :=
  let buf := combined_text summary location description
  if exclusion_hit buf then false
  else has_booking_platform buf || decide (1 ≤ travel_score buf)

/- ------------------------------------------------------------------ -/
/- Date Resolver: `app.py` lines 138-171 (`process_ics_file`).         -/
/- ------------------------------------------------------------------ -/

/-- A calendar date value as exposed by `component.get('dtstart').dt`:
either a (possibly timezone-aware) datetime or a date-only value.
Datetimes carry their naive wall-clock instant as a second count (the
value `replace(tzinfo=None)` yields); dates carry a day number. -/
inductive DTVal where
  | dateTime (t : Int) (aware : Bool)
  | dateOnly (d : Int)
deriving DecidableEq

/-- Normalization of one date value, `app.py` lines 149-156 / 158-165:
a timezone-aware datetime has its zone stripped keeping the wall clock;
a date-only value becomes midnight of that day
(`datetime.combine(d, datetime.min.time())`). -/
def dtToNaive : DTVal → Int
  | .dateTime t _ => t
  | .dateOnly d => 86400 * d

/-- Date resolution for one event, `app.py` lines 139-171: an absent
start skips the event (`continue`); an absent end defaults to the
resolved start (`end_date = start_date`). -/
def resolveDates (dtstart dtend : Option DTVal) : Option (Int × Int) :=
  match dtstart with
  | none => none
  | some s =>
    let start_date := dtToNaive s
    match dtend with
    | none => some (start_date, start_date)
    | some e => some (start_date, dtToNaive e)

/-- Duration of a trip, `app.py` line 194:
`max(1, int((end_date - start_date).total_seconds() / 86400))`.
Python's `int()` truncates toward zero, hence `Int.tdiv`. -/
def duration_days (start_date end_date : Int) : Int :=
  max 1 (Int.tdiv (end_date - start_date) 86400)

/- ------------------------------------------------------------------ -/
/- Generic machinery for the source's `re.sub` calls: replace every    -/
/- non-overlapping match (found leftmost-first) by the empty string.   -/
/- `matchAt s` returns the remainder after a match starting at the     -/
/- head of `s`, or `none`; all embedded patterns match at least one    -/
/- character, so the fuel `s.length` is never exhausted.               -/
/- ------------------------------------------------------------------ -/

/-- Fueled worker for `subAll`. -/
def subAllGo (matchAt : Str → Option Str) : Nat → Str → Str
  | 0, s => s
  | _ + 1, [] => []
  | n + 1, c :: cs =>
    match matchAt (c :: cs) with
    | some rest => subAllGo matchAt n rest
    | none => c :: subAllGo matchAt n cs

/-- Replace every non-overlapping match of a pattern (given by its
head-anchored matcher `matchAt`) with the empty string, scanning left
to right as `re.sub` does. -/
def subAll (matchAt : Str → Option Str) (s : Str) : Str :=
  subAllGo matchAt s.length s

/-- Case-insensitive `startswith` (used for `re.IGNORECASE` literals). -/
def startsWithCI : Str → Str → Bool
  | [], _ => true
  | _ :: _, [] => false
  | p :: ps, c :: cs => (p.toLower == c.toLower) && startsWithCI ps cs

/-- Python `s.split(sep)[0]`: the part of `s` before the first
occurrence of `sep` (all of `s` when `sep` does not occur). -/
def takeBeforeFirst (sep : Str) : Str → Str
  | [] => []
  | c :: cs => if startsWithL sep (c :: cs) then [] else c :: takeBeforeFirst sep cs

/-- Worker for `pySplit`, accumulating the current token reversed. -/
def pySplitGo (cur : Str) : Str → List Str
  | [] => if cur.isEmpty then [] else [cur.reverse]
  | c :: cs =>
    if pySpace c then
      if cur.isEmpty then pySplitGo [] cs else cur.reverse :: pySplitGo [] cs
    else pySplitGo (c :: cur) cs

/-- Python `str.split()` with no argument: whitespace tokenization with
no empty tokens. -/
def pySplit (s : Str) : List Str := pySplitGo [] s

/-- Python `' '.join(s.split())`: collapse whitespace runs to single
spaces and trim the ends. -/
def collapseWS (s : Str) : Str := List.intercalate [' '] (pySplit s)

/- ------------------------------------------------------------------ -/
/- Trip Title Cleaner: `app.py` lines 292-327 (`clean_trip_title`).    -/
/- ------------------------------------------------------------------ -/

/-- Python `title.startswith(('http://', 'https://', 'Http://',
'Https://'))`, `app.py` lines 218 and 299. -/
def startsWithUrlScheme (s : Str) : Bool :=
  startsWithL (strL "http://") s || startsWithL (strL "https://") s ||
  startsWithL (strL "Http://") s || startsWithL (strL "Https://") s

/-- Head-anchored matcher for `re.sub(r'https?://[^\s]+', '', ·)` with
`re.IGNORECASE` (`app.py` line 312): `https://` is preferred over
`http://` (greedy `s?`), then a maximal non-empty run of non-space
characters is consumed. -/
def matchUrlAt (s : Str) : Option Str :=
  if startsWithCI (strL "https://") s then matchNonSpaceRun (s.drop 8)
  else if startsWithCI (strL "http://") s then matchNonSpaceRun (s.drop 7)
  else none
where
  matchNonSpaceRun (r : Str) : Option Str :=
    if (r.takeWhile (fun x => !pySpace x)).isEmpty then none
    else some (r.dropWhile (fun x => !pySpace x))

/-- Truncation of overlong titles, `app.py` lines 318-325: cut at the
first separator found within the first 50 characters (Python's
`for`/`else`), else hard-truncate to 47 characters plus an ellipsis. -/
def truncateTitle (t : Str) : Str :=
  if isSubL (strL " - ") (t.take 50) then takeBeforeFirst (strL " - ") t
  else if isSubL (strL ", ") (t.take 50) then takeBeforeFirst (strL ", ") t
  else if isSubL (strL " (") (t.take 50) then takeBeforeFirst (strL " (") t
  else if isSubL (strL "  ") (t.take 50) then takeBeforeFirst (strL "  ") t
  else t.take 47 ++ strL "..."

/-- Trip Title Cleaner, `app.py` lines 292-327. -/
def clean_trip_title (title0 : Str) : Str :=
  let title := stripL title0
  if startsWithUrlScheme title then
    if isSubL (strL "trip.com") (lowerS title) then strL "Trip.com Booking"
    else if isSubL (strL "booking.com") (lowerS title) then strL "Booking.com Reservation"
    else if isSubL (strL "airbnb") (lowerS title) then strL "Airbnb Stay"
    else if isSubL (strL "google.com/maps") (lowerS title) then strL "Location"
    else strL "Hotel Booking"
  else
    let t1 := stripL (subAll matchUrlAt title)
    let t2 := collapseWS t1
    if 50 < t2.length then truncateTitle t2 else t2

/- ------------------------------------------------------------------ -/
/- Destination Extractor: `app.py` lines 210-277                       -/
/- (`extract_destination`), with each concrete regular expression      -/
/- implemented character by character with Python `re` semantics       -/
/- (leftmost match, greedy/lazy quantifiers as written).               -/
/- ------------------------------------------------------------------ -/

/-- Python `str.title()`: upper-case a character that follows a
non-alphabetic character (or the start), lower-case the rest. -/
def pyTitleGo (prevAlpha : Bool) : Str → Str
  | [] => []
  | c :: cs => (if prevAlpha then c.toLower else c.toUpper) :: pyTitleGo c.isAlpha cs

/-- Python `str.title()`. -/
def pyTitle (s : Str) : Str := pyTitleGo false s

/-- Consume regex `.*` (without DOTALL): everything up to but excluding
the next newline. -/
def consumeToEOL (s : Str) : Str := s.dropWhile (fun c => !(c == '\n'))

/-- Exactly four digits (`\d{4}`), returning the remainder. -/
def matchDigits4 : Str → Option Str
  | a :: b :: c :: d :: r =>
    if a.isDigit && b.isDigit && c.isDigit && d.isDigit then some r else none
  | _ => none

/-- Core of the postal pattern: `\d{3}-?\d{4}` (`-?` is greedy; if a
`-` is present the four digits must follow it, since backtracking onto
the `-` cannot produce a digit). -/
def matchPostalDigits : Str → Option Str
  | a :: b :: c :: r =>
    if a.isDigit && b.isDigit && c.isDigit then
      match r with
      | '-' :: r2 => matchDigits4 r2
      | _ => matchDigits4 r
    else none
  | _ => none

/-- Head-anchored matcher for `re.sub(r'〒?\d{3}-?\d{4}.*', '', ·)`
(`app.py` line 240). -/
def matchPostalAt (s : Str) : Option Str :=
  match s with
  | '〒' :: r => (matchPostalDigits r).map consumeToEOL
  | r => (matchPostalDigits r).map consumeToEOL

/-- Head-anchored matcher for `re.sub(r'\d+ Chome-.*', '', ·)`
(`app.py` line 241): a maximal digit run (the following literal starts
with a space, so greediness needs no backtracking), the literal
`" Chome-"`, then the rest of the line. -/
def matchChomeAt (s : Str) : Option Str :=
  match s with
  | c :: _ =>
    if c.isDigit then
      let r := s.dropWhile Char.isDigit
      if startsWithL (strL " Chome-") r then some (consumeToEOL (r.drop 7)) else none
    else none
  | [] => none

/-- Head-anchored matcher for `re.sub(r'Pin \d+.*', '', ·)`
(`app.py` line 242). -/
def matchPinAt (s : Str) : Option Str :=
  if startsWithL (strL "Pin ") s then
    let r := s.drop 4
    if (r.takeWhile Char.isDigit).isEmpty then none
    else some (consumeToEOL (r.dropWhile Char.isDigit))
  else none

/-- Regex word characters (`\w` / the class `\b` is relative to). -/
def isWordChar (c : Char) : Bool := c.isAlphanum || c == '_'

/-- The venue words removed from the location city,
`app.py` line 259. -/
def venueWords : List Str := List.map strL
  ["airport", "hotel", "center", "centre", "downtown", "station"]

/-- Head-anchored matcher (given whether the previous character was a
word character, for the leading `\b`) for
`re.sub(r'\b(airport|hotel|center|centre|downtown|station)\b', '', ·,
flags=re.IGNORECASE)` (`app.py` line 259). -/
def matchVenueAt (prevW : Bool) (s : Str) : Option Str :=
  if prevW then none
  else venueWords.findSome? (fun w =>
    if startsWithCI w s then
      match s.drop w.length with
      | [] => some []
      | c :: r => if isWordChar c then none else some (c :: r)
    else none)

/-- Fueled worker for `subVenue`, tracking whether the previous
character (in the original string) is a word character; all venue
words end in a letter, hence `true` after a replacement. -/
def subVenueGo : Nat → Bool → Str → Str
  | 0, _, s => s
  | _ + 1, _, [] => []
  | n + 1, prevW, c :: cs =>
    match matchVenueAt prevW (c :: cs) with
    | some rest => subVenueGo n true rest
    | none => c :: subVenueGo n (isWordChar c) cs

/-- The venue-word removal `re.sub` of `app.py` line 259. -/
def subVenue (s : Str) : Str := subVenueGo s.length false s

/-- Boolean use of `re.search(r'hotelid=(\d+)', title, re.IGNORECASE)`
(`app.py` line 222). -/
def hasHotelId : Str → Bool
  | [] => false
  | c :: cs =>
    (startsWithCI (strL "hotelid=") (c :: cs) &&
      (match (c :: cs).drop 8 with | d :: _ => d.isDigit | [] => false)) ||
    hasHotelId cs

/-- The capture class `[a-zA-Z\s]` of the destination patterns. -/
def isExtChar (c : Char) : Bool := c.isAlpha || pySpace c

/-- Lazy one-or-more capture extension (`[a-zA-Z\s]+?` followed by a
tail pattern): consume one class character at a time, checking the
tail after each, and return the shortest successful extension. -/
def lazyCap (tailOk : Str → Bool) : Str → Option Str
  | [] => none
  | c :: cs =>
    if isExtChar c then
      if tailOk cs then some [c] else (lazyCap tailOk cs).map (fun e => c :: e)
    else none

/-- Capture group `([A-Z][a-zA-Z\s]+?)` followed by the tail pattern
`tailOk`, anchored at the head of `s`. -/
def capWith (tailOk : Str → Bool) (s : Str) : Option Str :=
  match s with
  | c0 :: r => if c0.isUpper then (lazyCap tailOk r).map (fun e => c0 :: e) else none
  | [] => none

/-- Tail helper: `\s+word\s+` (greedy `\s+` needs no backtracking since
the following literals start with non-space characters). -/
def tailWordSpaced (w : Str) (rest : Str) : Bool :=
  let r2 := rest.dropWhile pySpace
  !(rest.takeWhile pySpace).isEmpty && startsWithL w r2 &&
    (match r2.drop w.length with | c :: _ => pySpace c | [] => false)

/-- Tail of pattern `(?:to|in|at)\s+([A-Z][a-zA-Z\s]+?)(?:\s*[-,:]|\s+on\s+|\s+from\s+|$)`
(`app.py` line 265); `$` also matches just before a final newline. -/
def tailA (rest : Str) : Bool :=
  (match rest.dropWhile pySpace with
   | c :: _ => c == '-' || c == ',' || c == ':'
   | [] => false) ||
  tailWordSpaced (strL "on") rest ||
  tailWordSpaced (strL "from") rest ||
  rest.isEmpty || rest == ['\n']

/-- One alternative of the first destination pattern's prefix: the
literal `w`, then `\s+` (greedy; the capture starts with `[A-Z]`, not
whitespace, so the maximal run is correct), then the capture. -/
def tryKwA (w s : Str) : Option Str :=
  if startsWithL w s then
    let r := s.drop w.length
    if (r.takeWhile pySpace).isEmpty then none
    else capWith tailA (r.dropWhile pySpace)
  else none

/-- Head-anchored matcher for the first destination pattern: the
alternation `(?:to|in|at)` in source order. -/
def matchPatA (s : Str) : Option Str :=
  match tryKwA (strL "to") s with
  | some cap => some cap
  | none =>
    match tryKwA (strL "in") s with
    | some cap => some cap
    | none => tryKwA (strL "at") s

/-- Leftmost search for the first destination pattern. -/
def searchPatA : Str → Option Str
  | [] => none
  | c :: cs =>
    match matchPatA (c :: cs) with
    | some cap => some cap
    | none => searchPatA cs

/-- Tail of pattern `([A-Z][a-zA-Z\s]+?)\s+(?:trip|vacation|holiday|flight|hotel)`
(`app.py` line 266). -/
def tailB (rest : Str) : Bool :=
  let r2 := rest.dropWhile pySpace
  !(rest.takeWhile pySpace).isEmpty &&
    (startsWithL (strL "trip") r2 || startsWithL (strL "vacation") r2 ||
     startsWithL (strL "holiday") r2 || startsWithL (strL "flight") r2 ||
     startsWithL (strL "hotel") r2)

/-- Leftmost search for the second destination pattern. -/
def searchPatB : Str → Option Str
  | [] => none
  | c :: cs =>
    match capWith tailB (c :: cs) with
    | some cap => some cap
    | none => searchPatB cs

/-- Tail of pattern `^\s*([A-Z][a-zA-Z\s]+?)\s*[-:]` (`app.py` line 267). -/
def tailC (rest : Str) : Bool :=
  match rest.dropWhile pySpace with
  | c :: _ => c == '-' || c == ':'
  | [] => false

/-- The third destination pattern, anchored at the start of the string
(`^` with `re.search` and no MULTILINE). -/
def searchPatC (s : Str) : Option Str :=
  capWith tailC (s.dropWhile pySpace)

/-- Stopwords rejected as pattern-extracted destinations,
`app.py` line 274. -/
def destStopwords : List Str := List.map strL
  ["the", "hotel", "flight", "trip", "vacation"]

/-- One iteration of the pattern-extraction loop (`app.py` lines
270-275): on a match, strip the capture and reject stopwords (a
stopword capture falls through to the next pattern). -/
def patStep (res : Option Str) : Option Str :=
  match res with
  | some cap =>
    if destStopwords.contains (lowerS (stripL cap)) then none
    else some (stripL cap)
  | none => none

/-- The pattern-extraction loop, `app.py` lines 264-275. -/
def patternDest (title : Str) : Option Str :=
  match patStep (searchPatA title) with
  | some d => some d
  | none =>
    match patStep (searchPatB title) with
    | some d => some d
    | none => patStep (searchPatC title)

/-- The separator-cut loop of `app.py` lines 235-237, applied
sequentially. -/
def applySeps (title : Str) : Str :=
  (List.map strL [" (Formerly:", " - ", " 〒", "  ", " (Pin"]).foldl
    (fun t sep => if isSubL sep t then stripL (takeBeforeFirst sep t) else t) title

/-- The booking-platform prefix strip of `app.py` lines 245-247,
applied sequentially. -/
def applyPrefixStrip (title : Str) : Str :=
  (List.map strL ["Airbnb:", "Booking.com:", "Trip.com:", "Hotels.com:", "Agoda:"]).foldl
    (fun t p => if startsWithL p t then stripL (t.drop p.length) else t) title

/-- Generic words a cleaned-up title must not reduce to,
`app.py` line 250. -/
def genericTitleWords : List Str := List.map strL ["hotel", "airbnb", "booking"]

/-- Location placeholders, `app.py` line 254. -/
def locationPlaceholders : List Str := List.map strL ["", "none", "null"]

/-- The title-cleanup stage, `app.py` lines 235-247: separator cuts,
the three address `re.sub`s (each followed by `.strip()`), then the
booking-platform prefix strip. -/
def titleCleanupStage (title : Str) : Str :=
  applyPrefixStrip
    (stripL (subAll matchPinAt
      (stripL (subAll matchChomeAt
        (stripL (subAll matchPostalAt (applySeps title)))))))

/-- The city candidate from the location field, `app.py` lines
255-259: the part before the first comma, stripped, with venue words
removed and stripped again. -/
def locCity (location : Str) : Str :=
  stripL (subVenue (stripL (takeBeforeFirst [','] location)))

/-- The location-field strategy, `app.py` lines 254-261: a non-empty,
non-placeholder, non-URL location whose city candidate has length > 2
yields that candidate title-cased. -/
def locationStage (location : Str) : Option Str :=
  if !location.isEmpty && !locationPlaceholders.contains (lowerS location) &&
     !startsWithL (strL "http") location then
    if !(locCity location).isEmpty && 2 < (locCity location).length then
      some (pyTitle (locCity location))
    else none
  else none

/-- Destination Extractor, `app.py` lines 210-277, with explicit fuel
for the recursion of lines 226/230; every recursive call passes an
empty location, which cannot recurse again, so fuel 2 suffices and the
fuel-0 branch is unreachable from `extract_destination`. The source's
`title`/`location` locals are the stripped inputs. -/
def extract_destination_fuel : Nat → Str → Str → Str
  | 0, _, _ => strL "Unknown"
  | fuel + 1, title0, location0 =>
    if startsWithUrlScheme (stripL title0) then
      -- URL title handling, lines 218-231
      if isSubL (strL "trip.com") (lowerS (stripL title0)) && hasHotelId (stripL title0) then
        if !(stripL location0).isEmpty &&
           !startsWithL (strL "http") (stripL location0) then
          extract_destination_fuel fuel (stripL location0) []
        else strL "Hotel"
      else
        if !(stripL location0).isEmpty &&
           !startsWithL (strL "http") (stripL location0) then
          extract_destination_fuel fuel (stripL location0) []
        else strL "Unknown Location"
    else
      -- title cleanup and the length > 2 return, lines 235-251
      if !(titleCleanupStage (stripL title0)).isEmpty &&
         2 < (titleCleanupStage (stripL title0)).length &&
         !genericTitleWords.contains (lowerS (titleCleanupStage (stripL title0))) then
        titleCleanupStage (stripL title0)
      else
        -- location field, lines 254-261
        match locationStage (stripL location0) with
        | some c => c
        | none =>
          -- patterns, lines 264-275, then the fallback of line 277
          match patternDest (titleCleanupStage (stripL title0)) with
          | some d => d
          | none => strL "Unknown"

/-- Destination Extractor entry point (`extract_destination`). -/
def extract_destination (title location : Str) : Str :=
  extract_destination_fuel 2 title location

/- ------------------------------------------------------------------ -/
/- Trip Builder and Trip Collection Processor:                         -/
/- `app.py` lines 115-204 (`process_ics_file`).                        -/
/- ------------------------------------------------------------------ -/

/-- A VEVENT as seen by the pipeline: the three text fields (absent
fields default to the empty string via `component.get(..., '')`) and
the optional dtstart/dtend values. -/
structure VEvent where
  summary : Str
  location : Str
  description : Str
  dtstart : Option DTVal
  dtend : Option DTVal
deriving DecidableEq

/-- A Trip record, `app.py` lines 173-183 plus the `duration_days`
column of lines 193-198. -/
structure Trip where
  title : Str
  original_title : Str
  start_date : Int
  end_date : Int
  location : Str
  description : Str
  destination : Str
  travel_score : Nat
  has_booking_platform : Bool
  duration_days : Int
deriving DecidableEq

/-- Per-event Trip construction, `app.py` lines 115-184: classifier
first (exclusions, then the booking-platform / travel-score inclusion
rule), then date resolution; any skip (`continue`) yields `none`.
The `duration_days` column is added afterwards by the collection
processor (`addDuration`). -/
def buildTrip (ev : VEvent) : Option Trip :=
  let buf := combined_text ev.summary ev.location ev.description
  if exclusion_hit buf then none
  else if has_booking_platform buf || decide (1 ≤ travel_score buf) then
    match resolveDates ev.dtstart ev.dtend with
    | none => none
    | some (sd, ed) =>
      some { title := clean_trip_title ev.summary
             original_title := ev.summary
             start_date := sd
             end_date := ed
             location := ev.location
             description := ev.description.take 200
             destination := extract_destination ev.summary ev.location
             travel_score := travel_score buf
             has_booking_platform := has_booking_platform buf
             duration_days := 0 }
  else none

/-- The `duration_days` column, `app.py` lines 193-198. -/
def addDuration (t : Trip) : Trip :=
  { t with duration_days := duration_days t.start_date t.end_date }

/-- Worker for `dedupBy`, carrying the set of keys already seen. -/
def dedupByGo {α κ : Type} [DecidableEq κ] (key : α → κ) (seen : List κ) :
    List α → List α
  | [] => []
  | x :: xs =>
    if key x ∈ seen then dedupByGo key seen xs
    else x :: dedupByGo key (key x :: seen) xs

/-- pandas `drop_duplicates(subset=..., keep='first')`: keep the first
occurrence of each key, preserving the input order. -/
def dedupBy {α κ : Type} [DecidableEq κ] (key : α → κ) (l : List α) : List α :=
  dedupByGo key [] l

/-- The deduplication key of `app.py` line 201:
`subset=['title', 'start_date']`. -/
def tripKey (t : Trip) : Str × Int := (t.title, t.start_date)

/-- The candidate trip list before deduplication: the per-event builds
of `app.py` lines 115-187 with the `duration_days` column of lines
193-198. -/
def tripCandidates (evs : List VEvent) : List Trip :=
  (evs.filterMap buildTrip).map addDuration

/-- The whole per-feed pipeline of `process_ics_file`
(`app.py` lines 115-204): build trips per event, add the
`duration_days` column, drop duplicates on (title, start_date); no
sort is applied (line 200 is commented out in the source). -/
def process_ics_file (evs : List VEvent) : List Trip :=
  dedupBy tripKey (tripCandidates evs)

/- ------------------------------------------------------------------ -/
/- Smart Sorter: `app.py` lines 462-487 (`smart_sort_trips`), and the  -/
/- status classifications of `trip_map_optimized.py` / `trip_map.py`.  -/
/- ------------------------------------------------------------------ -/

/-- The three trip statuses. -/
inductive TStatus where
  | current
  | future
  | past
deriving DecidableEq

/-- Status classification of `app.py` lines 468-471:
current if start <= now <= end, else future if start > now,
else past. -/
def trip_status (now : Int) (t : Trip) : TStatus :=
  if t.start_date ≤ now ∧ now ≤ t.end_date then .current
  else if now < t.start_date then .future
  else .past

/-- Ascending comparison on `start_date`
(`sort_values('start_date')`). -/
def startLe (a b : Trip) : Bool := decide (a.start_date ≤ b.start_date)

/-- Descending comparison on `start_date`
(`sort_values('start_date', ascending=False)`). -/
def startGe (a b : Trip) : Bool := decide (b.start_date ≤ a.start_date)

/-- Smart Sorter, `app.py` lines 462-487: partition by status, sort
current and future ascending and past descending by `start_date`, then
concatenate current ++ future ++ past. The helper columns
(`trip_status`, `days_from_today`) added and dropped by the source do
not affect the records. The source's "now" is `datetime.now()`; it is
a parameter here. -/
def smart_sort_trips (now : Int) (df : List Trip) : List Trip :=
  let current_trips := (df.filter (fun t => trip_status now t == .current)).mergeSort startLe
  let future_trips := (df.filter (fun t => trip_status now t == .future)).mergeSort startLe
  let past_trips := (df.filter (fun t => trip_status now t == .past)).mergeSort startGe
  current_trips ++ future_trips ++ past_trips

/-- Status classification `OptimizedTripMap._get_status`
(`trip_map_optimized.py` lines 263-270): past if end < now, current if
start <= now <= end, else future. -/
def get_status_optimized (now start_date end_date : Int) : TStatus :=
  if end_date < now then .past
  else if start_date ≤ now ∧ now ≤ end_date then .current
  else .future

/-- Status classification `TripMap._get_status`
(`trip_map.py` lines 185-192), textually identical to the optimized
variant's. -/
def get_status_map (now start_date end_date : Int) : TStatus :=
  if end_date < now then .past
  else if start_date ≤ now ∧ now ≤ end_date then .current
  else .future

/- ------------------------------------------------------------------ -/
/- Destination Coordinate Resolver: `trip_map_optimized.py`            -/
/- lines 59-149 (`get_coordinates_fast`). Coordinates are modelled as  -/
/- the pair of captured latitude/longitude strings (the frozen claims  -/
/- compare coordinates only for identity, never arithmetically), with  -/
/- Python `float()` acceptance modelled by `floatOk`.                  -/
/- ------------------------------------------------------------------ -/

/-- A coordinate value: the latitude and longitude texts. -/
abbrev Coord := Str × Str

/-- The coordinate cache `self.coordinates_cache`: a Python dict,
modelled as an insertion-ordered association list. -/
abbrev Cache := List (Str × Coord)

/-- The key set of the cache. -/
def dictKeys (c : Cache) : List Str := c.map Prod.fst

/-- Python dict assignment `cache[k] = v`: overwrite in place if the
key exists, else append. -/
def dictInsert (k : Str) (v : Coord) (c : Cache) : Cache :=
  if c.any (fun e => e.1 == k) then
    c.map (fun e => if e.1 == k then (k, v) else e)
  else c ++ [(k, v)]

/-- The character class `[-\d.]` of the coordinate captures. -/
def isNumChar (c : Char) : Bool := c == '-' || c.isDigit || c == '.'

/-- Python `float()` acceptance on a capture drawn from `[-\d.]`
(the `try`/`except` of `trip_map_optimized.py` lines 77-84 / 95-101):
an optional leading minus sign, then at least one digit and at most
one dot, nothing else. -/
def floatOk (s : Str) : Bool :=
  let digitsDot (r : Str) : Bool :=
    r.all (fun c => c.isDigit || c == '.') &&
    decide ((r.filter (fun c => c == '.')).length ≤ 1) && r.any Char.isDigit
  match s with
  | '-' :: r => digitsDot r
  | r => digitsDot r

/-- Head-anchored matcher for the Google-URL coordinate patterns
`lit([-\d.]+),([-\d.]+)` (`trip_map_optimized.py` lines 68-72), where
`lit` is `@`, `ll=` or `q=`: both captures are maximal non-empty runs
of the class (the `,` separator is outside the class, so greediness
needs no backtracking). -/
def matchCoordPairAt (lit : Str) (s : Str) : Option (Str × Str) :=
  if startsWithL lit s then
    let r := s.drop lit.length
    let g1 := r.takeWhile isNumChar
    if g1.isEmpty then none
    else
      match r.dropWhile isNumChar with
      | ',' :: r2 =>
        let g2 := r2.takeWhile isNumChar
        if g2.isEmpty then none else some (g1, g2)
      | _ => none
  else none

/-- Leftmost `re.search` for one Google coordinate pattern. -/
def searchCoordPair (lit : Str) : Str → Option (Str × Str)
  | [] => none
  | c :: cs =>
    match matchCoordPairAt lit (c :: cs) with
    | some g => some g
    | none => searchCoordPair lit cs

/-- Head-anchored matcher for one key-value coordinate fragment
`key["\']?\s*:\s*([-\d.]+)` (case-insensitive), returning the capture
and the remainder. The optional quote, the space runs and the capture
run are greedy; none can steal a character the following literal
needs, so no backtracking arises. -/
def matchKVAt (key : Str) (s : Str) : Option (Str × Str) :=
  if startsWithCI key s then
    let r := s.drop key.length
    let r1 := match r with
      | c :: rr => if c == '"' || c == '\'' then rr else r
      | [] => r
    match r1.dropWhile pySpace with
    | ':' :: r3 =>
      let r4 := r3.dropWhile pySpace
      let g := r4.takeWhile isNumChar
      if g.isEmpty then none else some (g, r4.dropWhile isNumChar)
    | _ => none
  else none

/-- Rightmost successful key-value capture (the greedy `.*` between
the latitude and longitude parts makes `re` pick the last
occurrence). -/
def searchKVLast (key : Str) : Str → Option Str → Option Str
  | [], acc => acc
  | c :: cs, acc =>
    searchKVLast key cs
      (match matchKVAt key (c :: cs) with
       | some (g, _) => some g
       | none => acc)

/-- Search for one Trip.com-style pattern
`latKey...:...(num).*lngKey...:...(num)` with `re.IGNORECASE |
re.DOTALL` (`trip_map_optimized.py` lines 87-90): leftmost position
where the latitude part matches and a longitude part occurs later;
the longitude capture is the rightmost one (greedy `.*`). -/
def searchTripPat (latKey lngKey : Str) : Str → Option (Str × Str)
  | [] => none
  | c :: cs =>
    match matchKVAt latKey (c :: cs) with
    | some (g1, rest) =>
      (match searchKVLast lngKey rest none with
       | some g2 => some (g1, g2)
       | none => searchTripPat latKey lngKey cs)
    | none => searchTripPat latKey lngKey cs

/-- One pattern attempt of the URL tier: on a regex match, `float()`
both captures; a conversion failure is swallowed (`except: pass`) and
the next pattern is tried. -/
def tryCoordPat (res : Option (Str × Str)) : Option Coord :=
  match res with
  | some (g1, g2) => if floatOk g1 && floatOk g2 then some (g1, g2) else none
  | none => none

/-- The URL-parsing tier of `get_coordinates_fast`
(`trip_map_optimized.py` lines 63-101): the three Google patterns,
then the two Trip.com patterns, in source order. -/
def parseLocCoords (location_field : Str) : Option Coord :=
  match tryCoordPat (searchCoordPair (strL "@") location_field) with
  | some co => some co
  | none =>
    match tryCoordPat (searchCoordPair (strL "ll=") location_field) with
    | some co => some co
    | none =>
      match tryCoordPat (searchCoordPair (strL "q=") location_field) with
      | some co => some co
      | none =>
        match tryCoordPat (searchTripPat (strL "latitude") (strL "longitude") location_field) with
        | some co => some co
        | none => tryCoordPat (searchTripPat (strL "lat") (strL "lng") location_field)

/-- The static Japanese-city gazetteer of `get_coordinates_fast`,
`trip_map_optimized.py` lines 111-122 (dict in insertion order). -/
def japan_cities : List (Str × Coord) := [
  (strL "Matsubaya", (strL "34.6937", strL "135.5023")),
  (strL "Osaka", (strL "34.6937", strL "135.5023")),
  (strL "Kyoto", (strL "35.0116", strL "135.7681")),
  (strL "Tokyo", (strL "35.6762", strL "139.6503")),
  (strL "Hiroshima", (strL "34.3853", strL "132.4553")),
  (strL "Nagasaki", (strL "32.7503", strL "129.8777")),
  (strL "Fukuoka", (strL "33.5904", strL "130.4017")),
  (strL "Sapporo", (strL "43.0642", strL "141.3469")),
  (strL "Nara", (strL "34.6851", strL "135.8048")),
  (strL "Yokohama", (strL "35.4437", strL "139.6380"))]

/-- The read-only lookup tiers of `get_coordinates_fast`,
`trip_map_optimized.py` lines 103-149: exact cache hit on the cleaned
name, Japanese-city keyword match, cache partial match in either
direction, accommodation-style keyword fallback, country-centroid
fallback, else unresolved (`None`). -/
def lookupTiers (cache : Cache) (destination : Str) : Option Coord :=
  let dest_clean := pyTitle (stripL destination)
  match List.lookup dest_clean cache with
  | some co => some co
  | none =>
    match japan_cities.findSome? (fun e =>
        if isSubL (lowerS e.1) (lowerS destination) then some e.2 else none) with
    | some co => some co
    | none =>
      match cache.findSome? (fun e =>
          if isSubL (lowerS e.1) (lowerS dest_clean) ||
             isSubL (lowerS dest_clean) (lowerS e.1) then some e.2 else none) with
      | some co => some co
      | none =>
        if (List.map strL ["ryokan", "onsen", "shrine", "temple"]).any
            (fun w => isSubL w (lowerS destination)) then
          some (strL "36.2048", strL "138.2529")
        else if (List.map strL ["usa", "united states", "america"]).any
            (fun w => isSubL w (lowerS destination)) then
          some (strL "39.8283", strL "-98.5795")
        else if (List.map strL ["uk", "england", "britain"]).any
            (fun w => isSubL w (lowerS destination)) then
          some (strL "54.0000", strL "-2.0000")
        else if (List.map strL ["spain", "españa"]).any
            (fun w => isSubL w (lowerS destination)) then
          some (strL "40.4637", strL "-3.7492")
        else if (List.map strL ["japan", "日本"]).any
            (fun w => isSubL w (lowerS destination)) then
          some (strL "36.2048", strL "138.2529")
        else none

/-- The Destination Coordinate Resolver `get_coordinates_fast`
(`trip_map_optimized.py` lines 59-149), returning the result and the
updated cache. The only cache mutation in the source is
`self.coordinates_cache[destination] = [lat, lon]` on a successful
URL-tier parse (lines 81 and 98); every later tier is read-only. -/
def get_coordinates_fast (cache : Cache) (destination location_field : Str) :
    Option Coord × Cache :=
  match (if location_field.isEmpty then none else parseLocCoords location_field) with
  | some co => (some co, dictInsert destination co cache)
  | none => (lookupTiers cache destination, cache)

/- ------------------------------------------------------------------ -/
/- Concrete instances used by counterexamples and witnesses.           -/
/- ------------------------------------------------------------------ -/

/-- A minimal travel event: summary "trip", date-only start at day 0,
no end. -/
def ev0 : VEvent :=
  { summary := strL "trip", location := [], description := [],
    dtstart := some (.dateOnly 0), dtend := none }

/-- The Trip the pipeline produces from `ev0`. -/
def trip0 : Trip :=
  { title := strL "trip", original_title := strL "trip",
    start_date := 0, end_date := 0, location := [], description := [],
    destination := strL "trip", travel_score := 1,
    has_booking_platform := false, duration_days := 1 }

/-- A variant of `ev0` with a different description (same title and
start, so the same deduplication key). -/
def ev0dup : VEvent :=
  { summary := strL "trip", location := [], description := strL "x",
    dtstart := some (.dateOnly 0), dtend := none }

/-- A travel event whose present end (second 50) precedes its start
(second 100). -/
def invEvent : VEvent :=
  { summary := strL "trip", location := [], description := [],
    dtstart := some (.dateTime 100 false), dtend := some (.dateTime 50 false) }

/-- The end-to-end scenario event of the spec: "Flight to Tokyo" at
"Narita Airport", 2024-03-01 10:00-14:00 UTC (epoch seconds; the UTC
wall clock is what `replace(tzinfo=None)` keeps). -/
def tokyoEvent : VEvent :=
  { summary := strL "Flight to Tokyo", location := strL "Narita Airport",
    description := [],
    dtstart := some (.dateTime 1709287200 true),
    dtend := some (.dateTime 1709301600 true) }

/-- The Trip the pipeline produces from `tokyoEvent`. -/
def tokyoTrip : Trip :=
  { title := strL "Flight to Tokyo", original_title := strL "Flight to Tokyo",
    start_date := 1709287200, end_date := 1709301600,
    location := strL "Narita Airport", description := [],
    destination := strL "Flight to Tokyo", travel_score := 2,
    has_booking_platform := false, duration_days := 1 }

/-- Claim C1: the Keyword Classifier accepts an event iff no exclusion
keyword is a substring of the lower-cased combined buffer AND (some
booking-platform name is a substring OR `travel_score >= 1`); in
particular any buffer containing an exclusion term is rejected
regardless of travel signal. -/
theorem C1_keyword_classifier_accept_iff (s l d : Str) :
    (classifier_accept s l d = true ↔
      ((∀ e ∈ exclusion_keywords, ¬ isSubL e (combined_text s l d) = true) ∧
       ((∃ p ∈ booking_platforms, isSubL p (combined_text s l d) = true) ∨
        1 ≤ travel_score (combined_text s l d)))) ∧
    (∀ e ∈ exclusion_keywords, isSubL e (combined_text s l d) = true →
      classifier_accept s l d = false) := by
  constructor
  · by_cases h : exclusion_hit (combined_text s l d) = true
    · simp only [classifier_accept, h, if_true]
      rw [exclusion_hit, List.any_eq_true] at h
      obtain ⟨e, he, hsub⟩ := h
      constructor
      · intro hfalse; exact absurd hfalse (by simp)
      · rintro ⟨hall, _⟩; exact absurd hsub (hall e he)
    · simp only [classifier_accept, h, if_false]
      rw [exclusion_hit, List.any_eq_true] at h
      push_neg at h
      constructor
      · intro hacc
        refine ⟨fun e he => h e he, ?_⟩
        rcases Bool.or_eq_true_iff.mp hacc with hb | hs
        · exact Or.inl (List.any_eq_true.mp hb)
        · exact Or.inr (of_decide_eq_true hs)
      · rintro ⟨_, hb | hs⟩
        · exact Bool.or_eq_true_iff.mpr (Or.inl (List.any_eq_true.mpr hb))
        · exact Bool.or_eq_true_iff.mpr (Or.inr (decide_eq_true hs))
  · intro e he hsub
    have hhit : exclusion_hit (combined_text s l d) = true :=
      List.any_eq_true.mpr ⟨e, he, hsub⟩
    simp [classifier_accept, hhit]

/-- Witness for C1: the theorem applied to the spec's own example
"Team Meeting at Airport Hotel", whose buffer contains the exclusion
term "meeting" and travel keywords, is rejected. -/
theorem C1_keyword_classifier_accept_iff_witness :
    classifier_accept (strL "Team Meeting at Airport Hotel") [] [] = false :=
  (C1_keyword_classifier_accept_iff (strL "Team Meeting at Airport Hotel") [] []).2
    (strL "meeting") (by decide) (by decide)

/- ------------------------------------------------------------------ -/
/- Helper lemmas.                                                      -/
/- ------------------------------------------------------------------ -/

/-- Under the outer `max 1`, Python's truncating `int()` agrees with
the mathematical floor: for a non-negative span they coincide, and for
a negative span both quotients are non-positive and are clamped. -/
theorem max_one_tdiv_eq_max_one_fdiv (n : Int) :
    max 1 (Int.tdiv n 86400) = max 1 (Int.fdiv n 86400) := by
  rw [Int.fdiv_eq_ediv _ (by norm_num)]
  rcases le_or_lt 0 n with h | h
  · rw [Int.tdiv_eq_ediv h (by norm_num)]
  · have h0 : 0 ≤ Int.tdiv (-n) 86400 := Int.tdiv_nonneg (by omega) (by norm_num)
    have h1 : Int.tdiv (-n) 86400 = -(Int.tdiv n 86400) := by rw [Int.neg_tdiv]
    have h2 : n / 86400 < 0 := Int.ediv_neg' h (by norm_num)
    omega

/-- Members of the deduplicated list are members of the input. -/
theorem dedupByGo_sublist {α κ : Type} [DecidableEq κ] (key : α → κ) :
    ∀ (seen : List κ) (l : List α), (dedupByGo key seen l).Sublist l := by
  intro seen l
  induction l generalizing seen with
  | nil => simp [dedupByGo]
  | cons x xs ih =>
    simp only [dedupByGo]
    split
    · exact (ih seen).cons x
    · exact (ih _).cons₂ x

/-- The deduplicated list avoids the seen keys and has pairwise
distinct keys. -/
theorem dedupByGo_pairwise {α κ : Type} [DecidableEq κ] (key : α → κ) :
    ∀ (seen : List κ) (l : List α),
      (∀ x ∈ dedupByGo key seen l, key x ∉ seen) ∧
      List.Pairwise (fun a b => key a ≠ key b) (dedupByGo key seen l) := by
  intro seen l
  induction l generalizing seen with
  | nil => simp [dedupByGo]
  | cons x xs ih =>
    simp only [dedupByGo]
    split
    · exact ih seen
    · rename_i hx
      obtain ⟨h1, h2⟩ := ih (key x :: seen)
      refine ⟨?_, ?_⟩
      · intro y hy
        rcases List.mem_cons.mp hy with rfl | hy
        · exact hx
        · intro hc
          exact h1 y hy (List.mem_cons_of_mem _ hc)
      · refine List.Pairwise.cons ?_ h2
        intro b hb he
        exact h1 b hb (he ▸ List.mem_cons_self _ _)

/-- An element of the input that is the first occurrence of its key is
retained by deduplication. -/
theorem dedupByGo_mem_of_firstocc {α κ : Type} [DecidableEq κ] (key : α → κ) :
    ∀ (seen : List κ) (l : List α) (t : α), key t ∉ seen →
      (l.filter (fun x => decide (key x = key t))).head? = some t →
      t ∈ dedupByGo key seen l := by
  intro seen l
  induction l generalizing seen with
  | nil => intro t _ h; simp [List.filter_nil] at h
  | cons x xs ih =>
    intro t hseen hhead
    rw [List.filter_cons] at hhead
    by_cases hk : key x = key t
    · rw [if_pos (by simpa using hk)] at hhead
      rw [List.head?_cons, Option.some_inj] at hhead
      subst hhead
      simp only [dedupByGo]
      rw [if_neg hseen]
      exact List.mem_cons_self _ _
    · rw [if_neg (by simpa using hk)] at hhead
      simp only [dedupByGo]
      split
      · exact ih seen t hseen hhead
      · refine List.mem_cons_of_mem _ (ih _ t ?_ hhead)
        intro hc
        rcases List.mem_cons.mp hc with he | hc2
        · exact hk he.symm
        · exact hseen hc2

/-- Every element retained by deduplication is the first occurrence of
its key in the input. -/
theorem dedupByGo_firstocc_of_mem {α κ : Type} [DecidableEq κ] (key : α → κ) :
    ∀ (seen : List κ) (l : List α) (u : α), u ∈ dedupByGo key seen l →
      (l.filter (fun x => decide (key x = key u))).head? = some u := by
  intro seen l
  induction l generalizing seen with
  | nil => intro u h; simp [dedupByGo] at h
  | cons x xs ih =>
    intro u hu
    simp only [dedupByGo] at hu
    rw [List.filter_cons]
    split at hu
    · rename_i hx
      have h1 := ih seen u hu
      have hne : key x ≠ key u := by
        intro he
        exact (dedupByGo_pairwise key seen xs).1 u hu (he ▸ hx)
      rw [if_neg (by simpa using hne)]
      exact h1
    · rename_i hx
      rcases List.mem_cons.mp hu with rfl | hu2
      · rw [if_pos (by simp)]
        rw [List.head?_cons]
      · have h1 := ih (key x :: seen) u hu2
        have hne : key x ≠ key u := by
          intro he
          exact (dedupByGo_pairwise key _ xs).1 u hu2 (he ▸ List.mem_cons_self _ _)
        rw [if_neg (by simpa using hne)]
        exact h1

/-- Record-level facts about a successfully built trip. -/
theorem buildTrip_fields (ev : VEvent) (t : Trip) (h : buildTrip ev = some t) :
    t.destination = extract_destination ev.summary ev.location ∧
    t.travel_score = travel_score (combined_text ev.summary ev.location ev.description) ∧
    (has_booking_platform (combined_text ev.summary ev.location ev.description) = true ∨
      1 ≤ travel_score (combined_text ev.summary ev.location ev.description)) ∧
    t.duration_days = 0 := by
  simp only [buildTrip] at h
  split at h
  · exact absurd h (by simp)
  · split at h
    · rename_i hacc
      split at h
      · exact absurd h (by simp)
      · rw [Option.some_inj] at h
        subst h
        refine ⟨rfl, rfl, ?_, rfl⟩
        rcases Bool.or_eq_true_iff.mp hacc with hb | hs
        · exact Or.inl hb
        · exact Or.inr (of_decide_eq_true hs)
    · exact absurd h (by simp)

/-- Every member of the pipeline output is a duration-stamped build of
some input event. -/
theorem mem_process_ics_file (evs : List VEvent) (t : Trip)
    (h : t ∈ process_ics_file evs) :
    ∃ ev ∈ evs, ∃ t0, buildTrip ev = some t0 ∧ t = addDuration t0 := by
  have h1 : t ∈ tripCandidates evs :=
    (dedupByGo_sublist tripKey [] (tripCandidates evs)).subset h
  unfold tripCandidates at h1
  rw [List.mem_map] at h1
  obtain ⟨t0, ht0, rfl⟩ := h1
  rw [List.mem_filterMap] at ht0
  obtain ⟨ev, hev, hbuild⟩ := ht0
  exact ⟨ev, hev, t0, hbuild, rfl⟩

/- ------------------------------------------------------------------ -/
/- Claim theorems.                                                     -/
/- ------------------------------------------------------------------ -/

/-- Counterexample for claim C2: an event whose present end (second
50) precedes its start (second 100) passes the classifier and yields a
Trip whose end_date precedes its start_date — the start-for-end
substitution of `app.py` line 170-171 fires only when the end is
absent, so the claimed invariant fails for inverted source spans. -/
theorem C2_counterexample_inverted_span :
    (process_ics_file [invEvent]).map (fun t => (t.start_date, t.end_date)) =
      [((100 : Int), (50 : Int))] ∧ ¬ ((100 : Int) ≤ (50 : Int)) := by
  constructor
  · decide
  · decide

/-- Claim C2 as amended: the substitution `end_date := start_date`
happens exactly when the event's end is absent, and `start_date <=
end_date` holds iff the end is absent or the resolved end does not
precede the resolved start; an event with a present end before its
start keeps the inverted span. -/
theorem C2_amended_date_invariant (s : DTVal) (e : Option DTVal) (sd ed : Int)
    (h : resolveDates (some s) e = some (sd, ed)) :
    (e = none → ed = sd) ∧
    (sd ≤ ed ↔ (e = none ∨ ∃ ev, e = some ev ∧ dtToNaive s ≤ dtToNaive ev)) := by
  cases e with
  | none =>
    simp only [resolveDates, Option.some_inj] at h
    obtain ⟨rfl, rfl⟩ := Prod.mk.injEq .. ▸ (Prod.ext_iff.mp h.symm)
    simp
  | some ev =>
    simp only [resolveDates, Option.some_inj] at h
    obtain ⟨h1, h2⟩ := Prod.ext_iff.mp h.symm
    subst h1; subst h2
    simp

/-- Witness for the amended C2 theorem at a concrete input. -/
theorem C2_amended_witness : (0 : Int) = 0 :=
  (C2_amended_date_invariant (.dateOnly 0) none 0 0 rfl).1 rfl

/-- Claim C3: every Trip's `duration_days` equals
`max(1, floor((end_date - start_date) in seconds / 86400))`, hence is
at least 1, for all input spans including zero-length and inverted
ones (the source's truncating `int()` agrees with the floor under the
outer `max 1`). -/
theorem C3_duration_days (evs : List VEvent) (t : Trip)
    (h : t ∈ process_ics_file evs) :
    t.duration_days = max 1 (Int.fdiv (t.end_date - t.start_date) 86400) ∧
    1 ≤ t.duration_days := by
  obtain ⟨ev, _, t0, _, rfl⟩ := mem_process_ics_file evs t h
  have h1 : (addDuration t0).duration_days =
      max 1 (Int.tdiv ((addDuration t0).end_date - (addDuration t0).start_date) 86400) := rfl
  rw [h1, max_one_tdiv_eq_max_one_fdiv]
  exact ⟨rfl, le_max_left _ _⟩

/-- Witness for C3 at the concrete feed `[ev0]`. -/
theorem C3_duration_days_witness :
    trip0.duration_days = max 1 (Int.fdiv (trip0.end_date - trip0.start_date) 86400) ∧
    1 ≤ trip0.duration_days :=
  C3_duration_days [ev0] trip0 (by decide)

/-- Claim C10: for a record with `start_date <= end_date`, the status
classification of `smart_sort_trips` in `app.py` agrees with
`_get_status` of `trip_map_optimized.py` and of `trip_map.py` at every
"now". -/
theorem C10_status_classification_agrees (now : Int) (t : Trip)
    (h : t.start_date ≤ t.end_date) :
    trip_status now t = get_status_optimized now t.start_date t.end_date ∧
    get_status_optimized now t.start_date t.end_date =
      get_status_map now t.start_date t.end_date := by
  refine ⟨?_, rfl⟩
  unfold trip_status get_status_optimized
  split_ifs with h1 h2 h3 h4 h5 <;> first | rfl | omega

/-- Witness for C10 at a concrete record and "now". -/
theorem C10_status_witness :
    trip_status 5 trip0 = get_status_optimized 5 trip0.start_date trip0.end_date ∧
    get_status_optimized 5 trip0.start_date trip0.end_date =
      get_status_map 5 trip0.start_date trip0.end_date :=
  C10_status_classification_agrees 5 trip0 (by decide)

/-- Counterexample for claim C4: for the spec's end-to-end scenario
the produced destination is the whole cleaned title "Flight to Tokyo",
not "Tokyo" — the title-cleanup strategy returns the title before the
pattern strategies run (which, had they been reached, would have
produced "Tokyo"). -/
theorem C4_counterexample_destination :
    (process_ics_file [tokyoEvent]).map (fun t => t.destination) =
      [strL "Flight to Tokyo"] ∧
    strL "Flight to Tokyo" ≠ strL "Tokyo" ∧
    patternDest (strL "Flight to Tokyo") = some (strL "Tokyo") := by
  refine ⟨by decide, by decide, by decide⟩

/-- Claim C4 as amended: the "Flight to Tokyo" feed produces exactly
one Trip, with destination "Flight to Tokyo" (the cleaned title),
`duration_days = 1` and `travel_score = 2` (the keywords "flight" and
"airport"). -/
theorem C4_amended_end_to_end :
    process_ics_file [tokyoEvent] = [tokyoTrip] ∧
    tokyoTrip.destination = strL "Flight to Tokyo" ∧
    tokyoTrip.duration_days = 1 ∧
    tokyoTrip.travel_score = 2 := by
  refine ⟨by decide, by decide, by decide, by decide⟩

/-- Claim C5: the Trip Collection Processor's output has no two trips
sharing a (title, start_date) key; it is a subsequence of the
candidate list (no sorting applied); a candidate that is the first
occurrence of its key is retained; and every retained trip is the
first occurrence of its key (later duplicates are dropped). -/
theorem C5_dedup_collection (evs : List VEvent) :
    List.Pairwise (fun a b => tripKey a ≠ tripKey b) (process_ics_file evs) ∧
    (process_ics_file evs).Sublist (tripCandidates evs) ∧
    (∀ t ∈ tripCandidates evs,
      ((tripCandidates evs).filter (fun x => decide (tripKey x = tripKey t))).head? =
        some t →
      t ∈ process_ics_file evs) ∧
    (∀ u ∈ process_ics_file evs,
      ((tripCandidates evs).filter (fun x => decide (tripKey x = tripKey u))).head? =
        some u) := by
  refine ⟨(dedupByGo_pairwise tripKey [] _).2, dedupByGo_sublist tripKey [] _, ?_, ?_⟩
  · intro t _ hh
    exact dedupByGo_mem_of_firstocc tripKey [] _ t (by simp) hh
  · intro u hu
    exact dedupByGo_firstocc_of_mem tripKey [] _ u hu

/-- Witness for C5: in a feed with a duplicated (title, start_date)
key, the first candidate is retained. -/
theorem C5_dedup_witness : trip0 ∈ process_ics_file [ev0, ev0dup] :=
  (C5_dedup_collection [ev0, ev0dup]).2.2.1 trip0 (by decide) (by decide)

/-- Claim C9: every booking platform is also a travel keyword, so a
booking-platform hit forces `travel_score >= 1`; consequently every
Trip the pipeline produces has `travel_score >= 1`. -/
theorem C9_booking_platform_implies_travel_score :
    (∀ p ∈ booking_platforms, p ∈ travel_keywords) ∧
    (∀ buf : Str, has_booking_platform buf = true → 1 ≤ travel_score buf) ∧
    (∀ (evs : List VEvent) (t : Trip), t ∈ process_ics_file evs →
      1 ≤ t.travel_score) := by
  have hsub : ∀ p ∈ booking_platforms, p ∈ travel_keywords := by decide
  have hscore : ∀ buf : Str, has_booking_platform buf = true → 1 ≤ travel_score buf := by
    intro buf hb
    rw [has_booking_platform, List.any_eq_true] at hb
    obtain ⟨p, hp, hsubp⟩ := hb
    have hpos : 0 < travel_score buf :=
      List.countP_pos_iff.mpr ⟨p, hsub p hp, hsubp⟩
    omega
  refine ⟨hsub, hscore, ?_⟩
  intro evs t ht
  obtain ⟨ev, _, t0, hb, rfl⟩ := mem_process_ics_file evs t ht
  obtain ⟨_, hts, hacc, _⟩ := buildTrip_fields ev t0 hb
  have heq : (addDuration t0).travel_score = t0.travel_score := rfl
  rw [heq, hts]
  rcases hacc with hbp | hs
  · exact hscore _ hbp
  · exact hs

/-- Witness for C9 at the concrete feed `[ev0]`. -/
theorem C9_travel_score_witness : 1 ≤ trip0.travel_score :=
  (C9_booking_platform_implies_travel_score).2.2 [ev0] trip0 (by decide)

/-- The three status filters partition any collection: their
concatenation is a permutation of it. -/
theorem status_filter_partition_perm (now : Int) (df : List Trip) :
    (df.filter (fun t => trip_status now t == TStatus.current) ++
     df.filter (fun t => trip_status now t == TStatus.future) ++
     df.filter (fun t => trip_status now t == TStatus.past)).Perm df := by
  induction df with
  | nil => simp
  | cons x xs ih =>
    cases h : trip_status now x with
    | current =>
      simp only [List.filter_cons, h, beq_self_eq_true, if_true,
        show (TStatus.current == TStatus.future) = false by decide,
        show (TStatus.current == TStatus.past) = false by decide,
        Bool.false_eq_true, if_false, List.cons_append]
      exact ih.cons x
    | future =>
      simp only [List.filter_cons, h, beq_self_eq_true, if_true,
        show (TStatus.future == TStatus.current) = false by decide,
        show (TStatus.future == TStatus.past) = false by decide,
        Bool.false_eq_true, if_false]
      rw [List.append_assoc, List.cons_append]
      refine List.perm_middle.trans ?_
      rw [← List.append_assoc]
      exact ih.cons x
    | past =>
      simp only [List.filter_cons, h, beq_self_eq_true, if_true,
        show (TStatus.past == TStatus.current) = false by decide,
        show (TStatus.past == TStatus.future) = false by decide,
        Bool.false_eq_true, if_false]
      exact List.perm_middle.trans (ih.cons x)

/-- Claim C6: `smart_sort_trips` returns a permutation of its input,
shaped as the current trips sorted ascending by start, then the future
trips ascending, then the past trips descending. -/
theorem C6_smart_sort_order (now : Int) (df : List Trip) :
    (smart_sort_trips now df).Perm df ∧
    ∃ c f p, smart_sort_trips now df = c ++ f ++ p ∧
      c.Perm (df.filter (fun t => trip_status now t == TStatus.current)) ∧
      List.Sorted (fun a b : Trip => a.start_date ≤ b.start_date) c ∧
      f.Perm (df.filter (fun t => trip_status now t == TStatus.future)) ∧
      List.Sorted (fun a b : Trip => a.start_date ≤ b.start_date) f ∧
      p.Perm (df.filter (fun t => trip_status now t == TStatus.past)) ∧
      List.Sorted (fun a b : Trip => b.start_date ≤ a.start_date) p := by
  have htransLe : ∀ a b c : Trip, startLe a b = true → startLe b c = true →
      startLe a c = true := by
    intro a b c hab hbc
    simp only [startLe, decide_eq_true_eq] at *
    omega
  have htotalLe : ∀ a b : Trip, (startLe a b || startLe b a) = true := by
    intro a b
    simp only [startLe, Bool.or_eq_true, decide_eq_true_eq]
    omega
  have htransGe : ∀ a b c : Trip, startGe a b = true → startGe b c = true →
      startGe a c = true := by
    intro a b c hab hbc
    simp only [startGe, decide_eq_true_eq] at *
    omega
  have htotalGe : ∀ a b : Trip, (startGe a b || startGe b a) = true := by
    intro a b
    simp only [startGe, Bool.or_eq_true, decide_eq_true_eq]
    omega
  constructor
  · refine List.Perm.trans ?_ (status_filter_partition_perm now df)
    exact ((List.mergeSort_perm _ startLe).append
      (List.mergeSort_perm _ startLe)).append (List.mergeSort_perm _ startGe)
  · refine ⟨_, _, _, rfl, List.mergeSort_perm _ _, ?_,
      List.mergeSort_perm _ _, ?_, List.mergeSort_perm _ _, ?_⟩
    · exact (List.sorted_mergeSort htransLe htotalLe _).imp
        (fun hab => by simpa [startLe] using hab)
    · exact (List.sorted_mergeSort htransLe htotalLe _).imp
        (fun hab => by simpa [startLe] using hab)
    · exact (List.sorted_mergeSort htransGe htotalGe _).imp
        (fun hab => by simpa [startGe] using hab)

/-- A dict assignment either preserves the key list (overwrite) or
appends exactly the new key. -/
theorem dictKeys_dictInsert (k : Str) (v : Coord) (c : Cache) :
    dictKeys (dictInsert k v c) = dictKeys c ∨
    dictKeys (dictInsert k v c) = dictKeys c ++ [k] := by
  unfold dictInsert
  split
  · left
    unfold dictKeys
    rw [List.map_map]
    apply List.map_congr_left
    intro e _
    simp only [Function.comp_apply]
    split
    · rename_i he
      exact (eq_of_beq he).symm
    · rfl
  · right
    unfold dictKeys
    rw [List.map_append]
    rfl

/-- A dict assignment grows the store by at most one entry. -/
theorem dictInsert_length (k : Str) (v : Coord) (c : Cache) :
    (dictInsert k v c).length ≤ c.length + 1 := by
  unfold dictInsert
  split
  · simp
  · simp

/-- Claim C7: one resolver call never removes a cache key, adds at
most the queried destination's key (so the key set is non-decreasing
and grows by at most one entry), and a second call with the same
destination and location returns the identical result. -/
theorem C7_coordinate_cache_monotonic (cache : Cache) (dest loc : Str) :
    (∀ k, k ∈ dictKeys cache → k ∈ dictKeys (get_coordinates_fast cache dest loc).2) ∧
    (∀ k, k ∈ dictKeys (get_coordinates_fast cache dest loc).2 →
      k ∈ dictKeys cache ∨ k = dest) ∧
    (get_coordinates_fast cache dest loc).2.length ≤ cache.length + 1 ∧
    (get_coordinates_fast (get_coordinates_fast cache dest loc).2 dest loc).1 =
      (get_coordinates_fast cache dest loc).1 := by
  cases hp : (if loc.isEmpty then none else parseLocCoords loc) with
  | none =>
    simp only [get_coordinates_fast, hp]
    exact ⟨fun k hk => hk, fun k hk => Or.inl hk, by omega, trivial⟩
  | some co =>
    simp only [get_coordinates_fast, hp]
    refine ⟨?_, ?_, dictInsert_length dest co cache, trivial⟩
    · intro k hk
      rcases dictKeys_dictInsert dest co cache with he | he <;> rw [he]
      · exact hk
      · exact List.mem_append_left _ hk
    · intro k hk
      rcases dictKeys_dictInsert dest co cache with he | he <;> rw [he] at hk
      · exact Or.inl hk
      · rcases List.mem_append.mp hk with h1 | h1
        · exact Or.inl h1
        · exact Or.inr (List.mem_singleton.mp h1)

/-- Witness for C7 at a concrete cache, destination and location. -/
theorem C7_coordinate_cache_witness :
    strL "X" ∈ dictKeys ([] : Cache) ∨ strL "X" = strL "X" :=
  (C7_coordinate_cache_monotonic [] (strL "X") (strL "@1.5,2.5")).2.1
    (strL "X") (by decide)

/-- Python `str.title()` preserves length. -/
theorem pyTitleGo_length : ∀ (b : Bool) (s : Str), (pyTitleGo b s).length = s.length := by
  intro b s
  induction s generalizing b with
  | nil => rfl
  | cons c cs ih => simp [pyTitleGo, ih]

/-- Stripping a string whose head is not whitespace is non-empty. -/
theorem stripL_cons_ne_nil (c : Char) (t : Str) (h : pySpace c = false) :
    stripL (c :: t) ≠ [] := by
  unfold stripL lstripL rstripL
  rw [List.dropWhile_cons, if_neg (by simp [h])]
  intro hc
  have h1 : List.dropWhile pySpace (c :: t).reverse = [] := by
    simpa using hc
  have h2 := List.dropWhile_eq_nil_iff.mp h1 c (by simp)
  rw [h] at h2
  exact Bool.false_ne_true h2

/-- An upper-case ASCII letter is not whitespace. -/
theorem isUpper_not_pySpace (c : Char) (h : c.isUpper = true) : pySpace c = false := by
  by_contra hne
  rw [Bool.not_eq_false] at hne
  simp only [pySpace, Bool.or_eq_true, beq_iff_eq] at hne
  rcases hne with ((((h1 | h1) | h1) | h1) | h1) | h1 <;> subst h1 <;>
    exact absurd h (by decide)

/-- A successful capture starts with the `[A-Z]` character. -/
theorem capWith_shape (tailOk : Str → Bool) (s cap : Str)
    (h : capWith tailOk s = some cap) :
    ∃ c0 e, cap = c0 :: e ∧ c0.isUpper = true := by
  cases s with
  | nil => exact absurd h (by simp [capWith])
  | cons c0 r =>
    simp only [capWith] at h
    split at h
    · rename_i hu
      cases hl : lazyCap tailOk r with
      | none => rw [hl] at h; exact absurd h (by simp)
      | some e =>
        rw [hl] at h
        refine ⟨c0, e, ?_, hu⟩
        simpa using h.symm
    · exact absurd h (by simp)

/-- Captures found through one keyword alternative of the first
pattern start with an upper-case letter. -/
theorem tryKwA_shape (w s cap : Str) (h : tryKwA w s = some cap) :
    ∃ c0 e, cap = c0 :: e ∧ c0.isUpper = true := by
  simp only [tryKwA] at h
  split at h
  · split at h
    · exact absurd h (by simp)
    · exact capWith_shape _ _ _ h
  · exact absurd h (by simp)

/-- Captures of the first pattern's head matcher start with an
upper-case letter. -/
theorem matchPatA_shape (s cap : Str) (h : matchPatA s = some cap) :
    ∃ c0 e, cap = c0 :: e ∧ c0.isUpper = true := by
  unfold matchPatA at h
  cases h1 : tryKwA (strL "to") s with
  | some c => rw [h1] at h; exact tryKwA_shape _ _ _ (h1.trans h)
  | none =>
    rw [h1] at h
    cases h2 : tryKwA (strL "in") s with
    | some c => rw [h2] at h; exact tryKwA_shape _ _ _ (h2.trans h)
    | none => rw [h2] at h; exact tryKwA_shape _ _ _ h

/-- Captures of the first pattern search start with an upper-case
letter. -/
theorem searchPatA_shape : ∀ (s cap : Str), searchPatA s = some cap →
    ∃ c0 e, cap = c0 :: e ∧ c0.isUpper = true := by
  intro s
  induction s with
  | nil => intro cap h; exact absurd h (by simp [searchPatA])
  | cons c cs ih =>
    intro cap h
    unfold searchPatA at h
    cases h1 : matchPatA (c :: cs) with
    | some d => rw [h1] at h; exact matchPatA_shape _ _ (h1.trans h)
    | none => rw [h1] at h; exact ih cap h

/-- Captures of the second pattern search start with an upper-case
letter. -/
theorem searchPatB_shape : ∀ (s cap : Str), searchPatB s = some cap →
    ∃ c0 e, cap = c0 :: e ∧ c0.isUpper = true := by
  intro s
  induction s with
  | nil => intro cap h; exact absurd h (by simp [searchPatB])
  | cons c cs ih =>
    intro cap h
    unfold searchPatB at h
    cases h1 : capWith tailB (c :: cs) with
    | some d => rw [h1] at h; exact capWith_shape _ _ _ (h1.trans h)
    | none => rw [h1] at h; exact ih cap h

/-- Captures of the third pattern search start with an upper-case
letter. -/
theorem searchPatC_shape (s cap : Str) (h : searchPatC s = some cap) :
    ∃ c0 e, cap = c0 :: e ∧ c0.isUpper = true := by
  unfold searchPatC at h
  exact capWith_shape _ _ _ h

/-- A destination produced by one pattern-loop iteration is
non-empty. -/
theorem patStep_ne_nil (res : Option Str) (d : Str)
    (hshape : ∀ cap, res = some cap → ∃ c0 e, cap = c0 :: e ∧ c0.isUpper = true)
    (h : patStep res = some d) : d ≠ [] := by
  cases res with
  | none => exact absurd h (by simp [patStep])
  | some cap =>
    obtain ⟨c0, e, rfl, hu⟩ := hshape cap rfl
    simp only [patStep] at h
    split at h
    · exact absurd h (by simp)
    · rw [Option.some_inj] at h
      rw [← h]
      exact stripL_cons_ne_nil c0 e (isUpper_not_pySpace c0 hu)

/-- A destination produced by the pattern-extraction loop is
non-empty. -/
theorem patternDest_ne_nil (t d : Str) (h : patternDest t = some d) : d ≠ [] := by
  unfold patternDest at h
  cases h1 : patStep (searchPatA t) with
  | some x =>
    rw [h1] at h
    exact patStep_ne_nil _ _ (fun cap hc => searchPatA_shape t cap hc) (h1.trans h)
  | none =>
    rw [h1] at h
    cases h2 : patStep (searchPatB t) with
    | some x =>
      rw [h2] at h
      exact patStep_ne_nil _ _ (fun cap hc => searchPatB_shape t cap hc) (h2.trans h)
    | none =>
      rw [h2] at h
      exact patStep_ne_nil _ _ (fun cap hc => searchPatC_shape t cap hc) h

/-- A destination produced by the location-field strategy is
non-empty. -/
theorem locationStage_ne_nil (loc c : Str) (h : locationStage loc = some c) :
    c ≠ [] := by
  simp only [locationStage] at h
  split at h
  · split at h
    · rename_i hlen
      rw [Option.some_inj] at h
      intro hc
      rw [← h] at hc
      simp only [Bool.and_eq_true, decide_eq_true_eq] at hlen
      have hl1 : (pyTitle (locCity loc)).length = (locCity loc).length :=
        pyTitleGo_length false (locCity loc)
      rw [hc] at hl1
      simp at hl1
      omega
    · exact absurd h (by simp)
  · exact absurd h (by simp)

/-- The Destination Extractor never returns the empty string, at any
fuel. -/
theorem extract_destination_fuel_ne_nil : ∀ (n : Nat) (t l : Str),
    extract_destination_fuel n t l ≠ [] := by
  intro n
  induction n with
  | zero => intro t l; simp [extract_destination_fuel, strL]
  | succ fuel ih =>
    intro t l
    simp only [extract_destination_fuel]
    split
    · split
      · split
        · exact ih _ _
        · simp [strL]
      · split
        · exact ih _ _
        · simp [strL]
    · split
      · rename_i h6
        intro hc
        rw [hc] at h6
        simp at h6
      · split
        · rename_i c hloc
          exact locationStage_ne_nil _ _ hloc
        · split
          · rename_i d hpd
            exact patternDest_ne_nil _ _ hpd
          · simp [strL]

/-- Claim C8: `extract_destination` returns a non-empty string for
every pair of inputs ("Unknown" when no strategy succeeds), and hence
every Trip's destination is non-empty. -/
theorem C8_destination_nonempty :
    (∀ t l : Str, extract_destination t l ≠ []) ∧
    (∀ (evs : List VEvent) (tr : Trip), tr ∈ process_ics_file evs →
      tr.destination ≠ []) ∧
    extract_destination (strL "zz") [] = strL "Unknown" := by
  refine ⟨fun t l => extract_destination_fuel_ne_nil 2 t l, ?_, by decide⟩
  intro evs tr htr
  obtain ⟨ev, _, t0, hb, rfl⟩ := mem_process_ics_file evs tr htr
  have hd : (addDuration t0).destination = t0.destination := rfl
  rw [hd, (buildTrip_fields ev t0 hb).1]
  exact extract_destination_fuel_ne_nil 2 _ _

/-- Witness for C8 at the concrete feed `[ev0]`. -/
theorem C8_destination_witness : trip0.destination ≠ [] :=
  C8_destination_nonempty.2.1 [ev0] trip0 (by decide)
